import Mathlib

/-!
# Verification of the poc_rp order-cancellation chat backend

A shallow embedding, in Lean 4, of the trust pipeline of the poc_rp
repository: the input sanitizer (`src/server/utils/sanitizeInput.js`),
the action validator (`src/server/services/actionValidator.js`), the AI
service parsing layer (`aiService.js`), and the chat controller's
cancellation paths (`src/server/controllers/chatController.js`).

JavaScript strings are modelled as Lean `String`/`List Char`; JS numbers
carrying confidences as `ℚ`; risk scores and counts as `ℕ`; fallible
store operations as `Except String`; `undefined`/`null`-able fields as
`Option`.  Regular-expression tests from the source are implemented as
explicit character-list scanners with JavaScript leftmost-greedy match
semantics.  Wall-clock timestamps are passed in as explicit `now`
parameters; audit writes that cannot influence any returned value
(`logValidationResult`, socket emits, console logging) are noted in
comments and elided.
-/

/-! ## JavaScript character classes and string helpers -/

/-- JS `\w`: ASCII letters, digits and underscore. -/
def isWordChar (c : Char) : Bool := c.isAlphanum || c = '_'

/-- JS `\s` (the cases that occur in chat text). -/
def isWsChar (c : Char) : Bool :=
  c = ' ' || c = '\t' || c = '\n' || c = '\r' || c = '\x0b' || c = '\x0c'

/-- Drop a maximal run of whitespace (JS `\s*`). -/
def skipWsStar : List Char → List Char
  | c :: rest => if isWsChar c then skipWsStar rest else c :: rest
  | [] => []

/-- Require at least one whitespace char, then drop the run (JS `\s+`). -/
def skipWsPlus : List Char → Option (List Char)
  | c :: rest => if isWsChar c then some (skipWsStar rest) else none
  | [] => none

/-- Case-insensitive literal match; returns the remainder. -/
def litCI : List Char → List Char → Option (List Char)
  | [], s => some s
  | _ :: _, [] => none
  | l :: ls, c :: cs => if l.toLower = c.toLower then litCI ls cs else none

/-- Case-sensitive literal match; returns the remainder. -/
def litCS : List Char → List Char → Option (List Char)
  | [], s => some s
  | _ :: _, [] => none
  | l :: ls, c :: cs => if l = c then litCS ls cs else none

/-- First-alternative-wins literal alternation (the alternation groups in the
source's patterns have no alternative that is a prefix of a later one, so
this equals the backtracking JS semantics). -/
def altLitCI (alts : List (List Char)) (s : List Char) : Option (List Char) :=
  match alts with
  | [] => none
  | a :: rest =>
    match litCI a s with
    | some r => some r
    | none => altLitCI rest s

/-- Consume one char if it case-insensitively equals `c` (JS `x?`). -/
def optCharCI (c : Char) : List Char → List Char
  | x :: xs => if x.toLower = c.toLower then xs else x :: xs
  | [] => []

/-- Maximal run of chars satisfying `p`; returns (run length, remainder). -/
def takeRun (p : Char → Bool) : List Char → Nat × List Char
  | [] => (0, [])
  | c :: cs =>
    if p c then
      let (n, r) := takeRun p cs
      (n + 1, r)
    else (0, c :: cs)

/-- JS `.` (not matching line terminators): skip to the end of line. -/
def restOfLine : List Char → List Char
  | [] => []
  | c :: cs => if c = '\n' || c = '\r' then c :: cs else restOfLine cs

/-- Is `needle` a prefix of `hay`? -/
def isPrefixAt : List Char → List Char → Bool
  | [], _ => true
  | _ :: _, [] => false
  | n :: ns, h :: hs => n = h && isPrefixAt ns hs

/-- JS `String.prototype.includes` (case-sensitive substring test). -/
def containsSub (hay needle : List Char) : Bool :=
  match hay with
  | [] => needle.isEmpty
  | _ :: hs => isPrefixAt needle hay || containsSub hs needle

/-- Remainder after the last `a,b` 2-char sequence within the current line
(JS greedy `.*ab` from the current position). -/
def lastOcc2 (a b : Char) : List Char → Option (List Char)
  | x :: y :: rest =>
    if x = '\n' || x = '\r' then none
    else
      match lastOcc2 a b (y :: rest) with
      | some r => some r
      | none => if x = a && y = b then some rest else none
  | _ => none

/-- Remainder after the last `a` within the current line (JS greedy `.*a`). -/
def lastOcc1 (a : Char) : List Char → Option (List Char)
  | x :: rest =>
    if x = '\n' || x = '\r' then none
    else
      match lastOcc1 a rest with
      | some r => some r
      | none => if x = a then some rest else none
  | [] => none

/-- JS-style trim for `\s`. -/
def trimChars (s : List Char) : List Char :=
  ((skipWsStar (skipWsStar s).reverse)).reverse

/-- Collapse every whitespace run to a single space (JS `replace(/\s+/g,' ')`). -/
def collapseWsAux (prevWs : Bool) : List Char → List Char
  | [] => []
  | c :: cs =>
    if isWsChar c then
      if prevWs then collapseWsAux true cs else ' ' :: collapseWsAux true cs
    else c :: collapseWsAux false cs

def collapseWs (s : List Char) : List Char := collapseWsAux false s

/-- Cap runs of `\n` at two (JS `replace(/\n{3,}/g,'\n\n')`). -/
def capNewlinesAux (nl : Nat) : List Char → List Char
  | [] => List.replicate (min nl 2) '\n'
  | c :: cs =>
    if c = '\n' then capNewlinesAux (nl + 1) cs
    else List.replicate (min nl 2) '\n' ++ c :: capNewlinesAux 0 cs

def capNewlines (s : List Char) : List Char := capNewlinesAux 0 s

/-- Remainder after the first `>` (body of JS `<[^>]*>`). -/
def findGt : List Char → Option (List Char)
  | [] => none
  | c :: cs => if c = '>' then some cs else findGt cs

/-- JS `replace(/<[^>]*>/g, '')`: strip HTML tags (fuel-bounded scan). -/
def stripTagsF : Nat → List Char → List Char
  | 0, s => s
  | fuel + 1, s =>
    match s with
    | [] => []
    | c :: cs =>
      if c = '<' then
        match findGt cs with
        | some r => stripTagsF fuel r
        | none => c :: stripTagsF fuel cs
      else c :: stripTagsF fuel cs

def stripTags (s : List Char) : List Char := stripTagsF (s.length + 1) s

/-! ## Input Sanitizer — `src/server/utils/sanitizeInput.js`

The thirteen `suspiciousPatterns` regexes, each as a matcher
`List Char → Option (List Char)` returning the remainder after a match
anchored at the head of the input (JS leftmost-greedy semantics; the
class-instance `lastIndex` statefulness of the `g`-flagged regexes is
modelled as the fresh-state single-call behaviour). -/

/-- `/ignore\s+(previous|all|above|system)\s+instructions?/gi` -/
def susp1At (s : List Char) : Option (List Char) := do
  let r ← litCI "ignore".data s
  let r ← skipWsPlus r
  let r ← altLitCI ["previous".data, "all".data, "above".data, "system".data] r
  let r ← skipWsPlus r
  let r ← litCI "instruction".data r
  pure (optCharCI 's' r)

/-- `/forget\s+(everything|all|previous)\s+(instructions?|prompts?)/gi` -/
def susp2At (s : List Char) : Option (List Char) := do
  let r ← litCI "forget".data s
  let r ← skipWsPlus r
  let r ← altLitCI ["everything".data, "all".data, "previous".data] r
  let r ← skipWsPlus r
  match litCI "instruction".data r with
  | some r2 => pure (optCharCI 's' r2)
  | none => do
    let r2 ← litCI "prompt".data r
    pure (optCharCI 's' r2)

/-- The optional group `(a\s+)?` (greedy: try with, else without). -/
def optAGroup (k : List Char → Option (List Char)) (s : List Char) :
    Option (List Char) :=
  match litCI "a".data s with
  | some r =>
    match skipWsPlus r with
    | some r2 =>
      match k r2 with
      | some res => some res
      | none => k s
    | none => k s
  | none => k s

/-- `/act\s+as\s+(a\s+)?(different|new|another)\s+(ai|bot|assistant|character)/gi` -/
def susp3At (s : List Char) : Option (List Char) := do
  let r ← litCI "act".data s
  let r ← skipWsPlus r
  let r ← litCI "as".data r
  let r ← skipWsPlus r
  optAGroup (fun t => do
    let t ← altLitCI ["different".data, "new".data, "another".data] t
    let t ← skipWsPlus t
    altLitCI ["ai".data, "bot".data, "assistant".data, "character".data] t) r

/-- `/pretend\s+(to\s+be|you\s+are)\s+(a\s+)?(different|evil|malicious)/gi` -/
def susp4At (s : List Char) : Option (List Char) := do
  let r ← litCI "pretend".data s
  let r ← skipWsPlus r
  let r ←
    (do
      let t ← litCI "to".data r
      let t ← skipWsPlus t
      litCI "be".data t) <|>
    (do
      let t ← litCI "you".data r
      let t ← skipWsPlus t
      litCI "are".data t)
  let r ← skipWsPlus r
  optAGroup (fun t => altLitCI ["different".data, "evil".data, "malicious".data] t) r

/-- Shared body of patterns 5-7: `X\s*:\s*["']?.*["']?` — after the colon the
greedy `.*` runs to the end of the line (the optional quotes match inside or
empty). -/
def roleInjectionAt (who : List Char) (s : List Char) : Option (List Char) := do
  let r ← litCI who s
  let r := skipWsStar r
  match r with
  | ':' :: r2 => pure (restOfLine (skipWsStar r2))
  | _ => none

/-- `/system\s*:\s*["']?.*["']?/gi` -/
def susp5At (s : List Char) : Option (List Char) := roleInjectionAt "system".data s

/-- `/assistant\s*:\s*["']?.*["']?/gi` -/
def susp6At (s : List Char) : Option (List Char) := roleInjectionAt "assistant".data s

/-- `/human\s*:\s*["']?.*["']?/gi` -/
def susp7At (s : List Char) : Option (List Char) := roleInjectionAt "human".data s

/-- `/\{\{.*\}\}/g` (template injection). -/
def susp8At (s : List Char) : Option (List Char) :=
  match s with
  | '\x7b' :: '\x7b' :: rest => lastOcc2 '\x7d' '\x7d' rest
  | _ => none

/-- `/\$\{.*\}/g` (variable injection). -/
def susp9At (s : List Char) : Option (List Char) :=
  match s with
  | '$' :: '\x7b' :: rest => lastOcc1 '\x7d' rest
  | _ => none

/-- Remainder after the first case-insensitive close-script tag. -/
def findCloseScript : List Char → Option (List Char)
  | [] => none
  | c :: cs =>
    match litCI "</script>".data (c :: cs) with
    | some r => some r
    | none => findCloseScript cs

/-- `/<script\b[^<]*(?:(?!<\/script>)<[^<]*)*<\/script>/gi`: from `<script`
(word boundary after) to the first subsequent `</script>`. -/
def susp10At (s : List Char) : Option (List Char) := do
  let r ← litCI "<script".data s
  match r with
  | c :: _ => if isWordChar c then none else findCloseScript r
  | [] => none

/-- `/javascript\s*:/gi` -/
def susp11At (s : List Char) : Option (List Char) := do
  let r ← litCI "javascript".data s
  match skipWsStar r with
  | ':' :: r2 => pure r2
  | _ => none

/-- `/data\s*:\s*text\/html/gi` -/
def susp12At (s : List Char) : Option (List Char) := do
  let r ← litCI "data".data s
  match skipWsStar r with
  | ':' :: r2 => litCI "text/html".data (skipWsStar r2)
  | _ => none

/-- `/on\w+\s*=\s*["'][^"']*["']?/gi` (event handlers). -/
def susp13At (s : List Char) : Option (List Char) := do
  let r ← litCI "on".data s
  match takeRun isWordChar r with
  | (0, _) => none
  | (_ + 1, r2) =>
    match skipWsStar r2 with
    | '=' :: r3 =>
      match skipWsStar r3 with
      | q :: r4 =>
        if q = '"' || q = '\x27' then
          let (_, r5) := takeRun (fun c => ¬ (c = '"' || c = '\x27')) r4
          match r5 with
          | c :: r6 => if c = '"' || c = '\x27' then pure r6 else pure r5
          | [] => pure []
        else none
      | [] => none
    | _ => none

/-- The ordered `suspiciousPatterns` list. -/
def suspiciousPatterns : List (List Char → Option (List Char)) :=
  [susp1At, susp2At, susp3At, susp4At, susp5At, susp6At, susp7At,
   susp8At, susp9At, susp10At, susp11At, susp12At, susp13At]

/-- Leftmost match of an anchored matcher: (start index, match length). -/
def findPat (m : List Char → Option (List Char)) : List Char → Option (Nat × Nat)
  | [] => none
  | c :: cs =>
    match m (c :: cs) with
    | some r => some (0, (c :: cs).length - r.length)
    | none =>
      match findPat m cs with
      | some p => some (p.1 + 1, p.2)
      | none => none

/-- JS `pattern.test(s)`. -/
def patTest (m : List Char → Option (List Char)) (s : List Char) : Bool :=
  (findPat m s).isSome

/-- JS global `String.replace(pattern, marker)`: replace every match,
continuing after the inserted marker. -/
def replaceAllPat (m : List Char → Option (List Char)) (marker : List Char) :
    Nat → List Char → List Char
  | 0, s => s
  | fuel + 1, s =>
    match findPat m s with
    | none => s
    | some (i, len) =>
      s.take i ++ marker ++ replaceAllPat m marker fuel (s.drop (i + len))

/-- The fixed `injectionKeywords` list (already lower-case in the source). -/
def injectionKeywords : List String :=
  ["ignore", "forget", "disregard", "override", "bypass", "jailbreak",
   "roleplaying", "roleplay", "pretend", "simulate", "emulate",
   "system message", "system prompt", "initial prompt", "base prompt"]

/-- Comma-space join (JS `Array.prototype.join(', ')`). -/
def joinCommaSp : List String → String
  | [] => ""
  | [x] => x
  | x :: y :: rest => x ++ ", " ++ joinCommaSp (y :: rest)

/-- `https?://[^\s]+` anchored at head: remainder after the URL. -/
def urlAt (s : List Char) : Option (List Char) := do
  let r ← litCI "http".data s
  let r := optCharCI 's' r
  let r ← litCS "://".data r
  match takeRun (fun c => ¬ isWsChar c) r with
  | (0, _) => none
  | (_ + 1, rest) => pure rest

/-- Count URL matches of `/(https?:\/\/[^\s]+)/gi` (non-overlapping scan). -/
def countUrlsF : Nat → List Char → Nat
  | 0, _ => 0
  | _, [] => 0
  | fuel + 1, s@(_ :: cs) =>
    match urlAt s with
    | some r => 1 + countUrlsF fuel r
    | none => countUrlsF fuel cs

def countUrls (s : List Char) : Nat := countUrlsF (s.length + 1) s

/-- JS `input.toLowerCase().split(/\s+/)` (empty tokens at the edges kept,
as JS produces them). -/
def splitOnSpaceAux (cur : List Char) : List Char → List (List Char)
  | [] => [cur.reverse]
  | c :: cs =>
    if c = ' ' then cur.reverse :: splitOnSpaceAux [] cs
    else splitOnSpaceAux (c :: cur) cs

def splitWsJS (s : List Char) : List (List Char) :=
  splitOnSpaceAux [] (collapseWs s)

/-- Number of suspicious patterns matching the (original) input —
`this.suspiciousPatterns.filter(p => p.test(input)).length`. -/
def countSuspicious (s : List Char) : Nat :=
  (suspiciousPatterns.filter (fun m => patTest m s)).length

/-- The keyword-density count of `calculateRiskScore`: words of the
lower-cased input that mutually substring-match an injection keyword. -/
def keywordDensityCount (input : List Char) : Nat :=
  let words := splitWsJS (input.map Char.toLower)
  (words.filter (fun w =>
    injectionKeywords.any (fun k =>
      containsSub k.data w || containsSub w k.data))).length

/-- The arithmetic core of `calculateRiskScore` (lines 182-211): length
risk, 15 per warning, 25 per matching suspicious pattern, keyword density
capped at 30, all clamped to 100. -/
def riskScoreCore (len warn susp kw : Nat) : Nat :=
  let s1 := (if len > 1000 then 10 else 0) + (if len > 2000 then 20 else 0)
  let s2 := s1 + warn * 15
  let s3 := s2 + susp * 25
  let s4 := s3 + (if kw > 0 then min (kw * 10) 30 else 0)
  min s4 100

/-- `calculateRiskScore(input, warnings)` — computed over the original
input and the final warning list. -/
def calculateRiskScore (input : String) (warnings : List String) : Nat :=
  riskScoreCore input.length warnings.length
    (countSuspicious input.data) (keywordDensityCount input.data)

/-- The object returned by `sanitizeInput`.  `riskScore = none` models the
early return for empty/non-string input, whose object literal carries no
`riskScore` key (it is `undefined` in JS). -/
structure SanitizationResult where
  sanitized : String
  warnings : List String
  riskScore : Option Nat
deriving DecidableEq, Repr

/-- One test-and-replace step of the suspicious-pattern pass. -/
def suspStep (acc : List Char × List String) (p : Nat × (List Char → Option (List Char))) :
    List Char × List String :=
  let (san, ws) := acc
  if patTest p.2 san then
    (replaceAllPat p.2 "[FILTERED]".data (san.length + 1) san,
     ws ++ ["Suspicious pattern detected and removed (" ++ toString (p.1 + 1) ++ ")"])
  else (san, ws)

/-- The early return of `sanitizeInput` for empty/non-string input: its
object literal carries no `riskScore` key. -/
def invalidInputResult : SanitizationResult :=
  { sanitized := "", warnings := ["Invalid input provided"], riskScore := none }

/-- The sanitisation passes of `sanitizeInput` (lines 47-87) on a valid
input: truncation, suspicious-pattern filtering, keyword scan, whitespace
normalisation, script/HTML removal, URL warning.  Returns the final
(sanitized text, warnings). -/
def sanitizePasses (inp : String) (cap : Nat) : List Char × List String :=
  let warnings : List String :=
    if inp.length > cap then ["Input truncated due to length"] else []
  let san : List Char := if inp.length > cap then inp.data.take cap else inp.data
  -- suspicious-pattern pass (test, then replace with [FILTERED])
  let (san, warnings) := suspiciousPatterns.enum.foldl suspStep (san, warnings)
  -- injection-keyword scan (does not alter the text)
  let lowerInput := san.map Char.toLower
  let foundKeywords := injectionKeywords.filter (fun k => containsSub lowerInput k.data)
  let warnings :=
    if foundKeywords.isEmpty then warnings
    else warnings ++
      ["Potential injection keywords detected: " ++ joinCommaSp foundKeywords]
  -- whitespace normalisation
  let san := trimChars (capNewlines (collapseWs san))
  -- script and HTML tag removal
  let san := replaceAllPat susp10At "[SCRIPT_REMOVED]".data (san.length + 1) san
  let san := stripTags san
  -- URL spam warning
  let warnings :=
    if countUrls san > 3 then warnings ++ ["Multiple URLs detected - potential spam"]
    else warnings
  (san, warnings)

/-- `sanitizeInput(input, options)` (lines 39-94).  `input = none` models a
non-string argument; `maxLength = none` means the 2000 default. -/
def sanitizeInput (input : Option String) (maxLength : Option Nat) : SanitizationResult :=
  match input with
  | none => invalidInputResult
  | some inp =>
    if inp.isEmpty then invalidInputResult
    else
      let p := sanitizePasses inp (maxLength.getD 2000)
      { sanitized := String.mk p.1, warnings := p.2,
        riskScore := some (calculateRiskScore inp p.2) }

/-! ## `extractOrderIds` — `sanitizeInput.js` lines 127-174

Each order-id pattern is a matcher taking the previous character (for `\b`)
and the suffix at the match position, returning the remainder on success. -/

/-- JS `\b` before the current position. -/
def boundaryBefore : Option Char → Bool
  | none => true
  | some c => ¬ isWordChar c

/-- JS `\b` after a word character: next char absent or non-word. -/
def boundaryAfter : List Char → Bool
  | [] => true
  | c :: _ => ¬ isWordChar c

/-- `/\b([A-Z]{2,4}[-][0-9]{4}[-][0-9]{3})\b/gi` -/
def p0At (prev : Option Char) (s : List Char) : Option (List Char) :=
  if ¬ boundaryBefore prev then none
  else
    let (l, r1) := takeRun Char.isAlpha s
    if l < 2 || l > 4 then none
    else
      match r1 with
      | '-' :: r2 =>
        let (d1, r3) := takeRun Char.isDigit r2
        if d1 ≠ 4 then none
        else
          match r3 with
          | '-' :: r4 =>
            let (d2, r5) := takeRun Char.isDigit r4
            if d2 = 3 && boundaryAfter r5 then some r5 else none
          | _ => none
      | _ => none

/-- `/\b([A-Z]{2,4}[0-9]{3,6})\b/gi` -/
def p1At (prev : Option Char) (s : List Char) : Option (List Char) :=
  if ¬ boundaryBefore prev then none
  else
    let (l, r1) := takeRun Char.isAlpha s
    if l < 2 || l > 4 then none
    else
      let (d, r2) := takeRun Char.isDigit r1
      if 3 ≤ d && d ≤ 6 && boundaryAfter r2 then some r2 else none

/-- The character class `[A-Z0-9\-]` under the `i` flag. -/
def idClassChar (c : Char) : Bool := c.isAlpha || c.isDigit || c = '-'

/-- `/#([A-Z0-9\-]{3,15})/gi` -/
def p2At (_prev : Option Char) (s : List Char) : Option (List Char) :=
  match s with
  | '#' :: r =>
    let (n, _) := takeRun idClassChar r
    let k := min n 15
    if k < 3 then none else some (r.drop k)
  | _ => none

/-- `/order\s+([A-Z0-9\-]{3,15})/gi` -/
def p3At (_prev : Option Char) (s : List Char) : Option (List Char) := do
  let r ← litCI "order".data s
  let r ← skipWsPlus r
  let (n, _) := takeRun idClassChar r
  let k := min n 15
  if k < 3 then none else some (r.drop k)

/-- `/\b([0-9]{5,10})\b/g` -/
def p4At (prev : Option Char) (s : List Char) : Option (List Char) :=
  if ¬ boundaryBefore prev then none
  else
    let (d, r) := takeRun Char.isDigit s
    if 5 ≤ d && d ≤ 10 && boundaryAfter r then some r else none

/-- All matches of a global regex, JS-style: scan left to right, take the
leftmost match, continue after its end. -/
def scanMatches (m : Option Char → List Char → Option (List Char)) :
    Nat → Option Char → List Char → List String
  | 0, _, _ => []
  | _, _, [] => []
  | fuel + 1, prev, c :: cs =>
    match m prev (c :: cs) with
    | some r =>
      let len := (c :: cs).length - r.length
      let matched := (c :: cs).take len
      String.mk matched ::
        scanMatches m fuel matched.getLast? ((c :: cs).drop len)
    | none => scanMatches m fuel (some c) cs

def allMatches (m : Option Char → List Char → Option (List Char)) (s : List Char) :
    List String :=
  scanMatches m (s.length + 1) none s

/-- JS `String.prototype.toUpperCase` (ASCII). -/
def toUpperStr (s : String) : String := String.mk (s.data.map Char.toUpper)

/-- Cleaning for pattern index 2: `match.replace(/^#/, '').toUpperCase()`. -/
def cleanHash (m : String) : String :=
  match m.data with
  | '#' :: rest => toUpperStr (String.mk rest)
  | _ => toUpperStr m

/-- Cleaning for pattern index 3: `match.replace(/^order\s+/i, '').toUpperCase()`. -/
def cleanOrderWord (m : String) : String :=
  match litCI "order".data m.data with
  | some r =>
    match skipWsPlus r with
    | some r2 => toUpperStr (String.mk r2)
    | none => toUpperStr m
  | none => toUpperStr m

/-- The common-word stop list. -/
def commonWords : List String :=
  ["NEED", "WANT", "CANCEL", "CHECK", "ORDER", "TRACK", "STATUS", "THE", "MY"]

/-- JS `Set.add` keeps first-insertion order. -/
def insertUnique (l : List String) (x : String) : List String :=
  if x ∈ l then l else l ++ [x]

/-- Fold one pattern's matches into the id set: clean, filter common words
and out-of-range lengths, dedupe. -/
def addMatches (clean : String → String) : List String → List String → List String
  | [], acc => acc
  | m :: ms, acc =>
    let cleaned := clean m
    let acc :=
      if 3 ≤ cleaned.length ∧ cleaned.length ≤ 20 ∧ cleaned ∉ commonWords then
        insertUnique acc cleaned
      else acc
    addMatches clean ms acc

/-- The object returned by `extractOrderIds`. -/
structure OrderIdResult where
  orderIds : List String
  isValid : Bool
deriving DecidableEq, Repr

/-- `extractOrderIds(input)` (lines 127-174): sanitize, run the five
reference patterns in order, clean/filter/dedupe, and flag validity when
between 1 and 3 distinct ids were found. -/
def extractOrderIds (input : String) : OrderIdResult :=
  let sanitized := (sanitizeInput (some input) none).sanitized
  let ids := addMatches toUpperStr (allMatches p0At sanitized.data) []
  let ids := addMatches toUpperStr (allMatches p1At sanitized.data) ids
  let ids := addMatches cleanHash (allMatches p2At sanitized.data) ids
  let ids := addMatches cleanOrderWord (allMatches p3At sanitized.data) ids
  let ids := addMatches toUpperStr (allMatches p4At sanitized.data) ids
  { orderIds := ids, isValid := ids.length > 0 && ids.length ≤ 3 }

/-! ## Action Validator — `src/server/services/actionValidator.js`

The order stores are modelled as lookup functions: `orderCache` for the
`OrderCache` mongoose collection (schema in `OrderCache.js`: `userId`
required, no `customerId` field) and `ordersColl` for the raw
`db.collection('orders')` documents.  The audit-log count queries
(`AuditLog.countDocuments`) are `Except`-valued: `.error` models a store
failure, which in JS surfaces as a thrown exception. -/

/-- A cached order (`OrderCache` document). -/
structure CacheOrder where
  orderId : String
  userId : String
  status : String
  cancellationEligible : Bool
deriving DecidableEq, Repr

/-- A raw `orders`-collection document (fields touched by this core). -/
structure DirectOrder where
  orderId : String
  customerId : Option String
  userId : Option String
  status : String
  cancelledAt : Option Nat
  cancelledBy : Option String
  cancellationReason : Option String
  updatedAt : Option Nat
deriving DecidableEq, Repr

/-- The execution environment of one validation run. -/
structure ValidationEnv where
  orderCache : String → Option CacheOrder
  ordersColl : String → Option DirectOrder
  /-- `process.env.NODE_ENV`. -/
  nodeEnv : String
  /-- 24-hour `order_cancellation_request` count for a user. -/
  countCancellations24h : String → Except String Nat
  /-- 5-minute audit-event count for a user. -/
  countRequests5m : String → Except String Nat
  /-- 1-minute audit-event count for a (user, session). -/
  countActivity1m : String → String → Except String Nat

/-- A structured intent (the `aiResponse` consumed by the validator). -/
structure AIIntent where
  action : String
  orderId : Option String
  productName : Option String
  confidence : ℚ
  message : String
  requiresConfirmation : Bool
deriving DecidableEq, Repr

/-- Request context (`userId`, `sessionId`). -/
structure ReqContext where
  userId : String
  sessionId : String
deriving DecidableEq, Repr

/-- One rule execution's result (`checkResult`). -/
structure ValidationCheck where
  name : String
  passed : Bool
  reason : String
  details : List (String × String)
  riskWeight : Nat
  recommendation : Option String
deriving DecidableEq, Repr

/-- `validateAction`'s result object. -/
structure ValidationResult where
  isValid : Bool
  action : String
  orderId : Option String
  userId : String
  sessionId : String
  checks : List ValidationCheck
  reasons : List String
  recommendations : List String
  riskScore : Nat
  rulesApplied : List String
deriving DecidableEq, Repr

/-- JS truthiness of an optional string (`undefined`, `null` and `""` are
falsy). -/
def optTruthy : Option String → Bool
  | none => false
  | some s => ¬ s.isEmpty

/-- JS `a || b` on optional strings. -/
def jsOrStr (a b : Option String) : Option String :=
  if optTruthy a then a else b

/-- JS template interpolation of a possibly-undefined string. -/
def jsStr : Option String → String
  | none => "undefined"
  | some s => s

/-- The `validationRules` table (`this.validationRules[action] || []`). -/
def validationRules : String → List String
  | "order_cancellation" =>
    ["orderExists", "orderBelongsToUser", "orderIsCancellable",
     "noRecentCancellations", "validOrderStatus"]
  | "status_check" => ["orderExists", "orderBelongsToUser"]
  | "general_inquiry" => ["rateLimitCheck"]
  | _ => []

/-- `this.nonCancellableStatuses`. -/
def nonCancellableStatuses : List String :=
  ["shipped", "delivered", "cancelled", "refunded", "returned"]

/-- `this.maxCancellationAttempts`. -/
def maxCancellationAttempts : Nat := 5

/-- `checkOrderExists` (lines 181-233): OrderCache first, then the raw
orders collection. -/
def checkOrderExists (env : ValidationEnv) (orderId : Option String)
    (c : ValidationCheck) : ValidationCheck :=
  if ¬ optTruthy orderId then { c with reason := "Order ID is required" }
  else
    let oid := jsStr orderId
    let foundStatus : Option String :=
      match env.orderCache oid with
      | some co => some co.status
      | none =>
        match env.ordersColl oid with
        | some d => some d.status
        | none => none
    match foundStatus with
    | some st =>
      { c with passed := true,
               details := [("orderFound", "true"), ("orderStatus", st),
                           ("source", "database")] }
    | none =>
      { c with reason := "Order " ++ oid ++ " not found",
               recommendation := some "Verify order ID and try again",
               riskWeight := 50 }

/-- The `(order.userId, order.customerId)` pair seen by the ownership test
of `checkOrderBelongsToUser`: an `OrderCache` hit exposes its required
`userId` (the schema has no `customerId`); a raw-collection hit is
converted with `userId: directOrder.customerId || directOrder.userId`. -/
def ownershipView (env : ValidationEnv) (oid : String) :
    Option (Option String × Option String) :=
  match env.orderCache oid with
  | some co => some (some co.userId, none)
  | none =>
    match env.ordersColl oid with
    | some d => some (jsOrStr d.customerId d.userId, d.customerId)
    | none => none

/-- `checkOrderBelongsToUser` (lines 238-284).  Note the source's ownership
test: `order.userId === userId || order.customerId === userId ||
process.env.NODE_ENV === 'development'`. -/
def checkOrderBelongsToUser (env : ValidationEnv) (orderId : Option String)
    (userId : String) (c : ValidationCheck) : ValidationCheck :=
  if ¬ optTruthy orderId ∨ userId.isEmpty then
    { c with reason := "Order ID and user ID are required" }
  else
    let oid := jsStr orderId
    match ownershipView env oid with
    | none =>
      { c with reason := "Order " ++ oid ++ " not found", riskWeight := 75 }
    | some (uidField, cidField) =>
      if uidField = some userId ∨ cidField = some userId ∨
         env.nodeEnv = "development" then
        { c with passed := true, details := [("ownershipVerified", "true")] }
      else
        { c with reason := "Order " ++ oid ++ " does not belong to user " ++ userId,
                 recommendation := some "Verify user identity and order ownership",
                 riskWeight := 100 }

/-- `checkOrderIsCancellable` (lines 289-329): cache orders use the
`OrderCache.canCancel` method (`cancellationEligible` and status outside
shipped/delivered/cancelled/refunded); direct orders use
`['pending','confirmed'].includes(status)`. -/
def checkOrderIsCancellable (env : ValidationEnv) (orderId : Option String)
    (c : ValidationCheck) : ValidationCheck :=
  let resolved : Option (String × Bool) :=
    match orderId with
    | none => none
    | some oid =>
      match env.orderCache oid with
      | some co =>
        some (co.status,
          co.cancellationEligible &&
            ¬ (co.status ∈ ["shipped", "delivered", "cancelled", "refunded"]))
      | none =>
        match env.ordersColl oid with
        | some d => some (d.status, d.status ∈ ["pending", "confirmed"])
        | none => none
  match resolved with
  | none => { c with reason := "Order " ++ jsStr orderId ++ " not found" }
  | some (st, canCancel) =>
    if canCancel then
      { c with passed := true,
               details := [("cancellable", "true"), ("currentStatus", st)] }
    else
      { c with reason := "Order " ++ jsStr orderId ++
                 " cannot be cancelled (status: " ++ st ++ ")",
               recommendation := some "Contact customer service for assistance",
               riskWeight := 15 }

/-- `checkRecentCancellations` (lines 334-354); a store failure is a thrown
exception (`Except.error`). -/
def checkRecentCancellations (env : ValidationEnv) (userId : String)
    (c : ValidationCheck) : Except String ValidationCheck :=
  match env.countCancellations24h userId with
  | .error e => .error e
  | .ok recentCancellations =>
    if recentCancellations < maxCancellationAttempts then
      .ok { c with passed := true,
                   details := [("recentCancellations", toString recentCancellations),
                               ("remainingAttempts",
                                toString (maxCancellationAttempts - recentCancellations))] }
    else
      .ok { c with reason := "Too many cancellation attempts (" ++
                     toString recentCancellations ++ "/" ++
                     toString maxCancellationAttempts ++ ")",
                   recommendation :=
                     some "Wait 24 hours before attempting another cancellation",
                   riskWeight := 40 }

/-- `checkOrderStatus` (lines 359-410), the `validOrderStatus` rule. -/
def checkOrderStatus (env : ValidationEnv) (orderId : Option String)
    (c : ValidationCheck) : ValidationCheck :=
  let resolved : Option String :=
    match orderId with
    | none => none
    | some oid =>
      match env.orderCache oid with
      | some co => some co.status
      | none =>
        match env.ordersColl oid with
        | some d => some d.status
        | none => none
  match resolved with
  | none => { c with reason := "Order " ++ jsStr orderId ++ " not found" }
  | some st0 =>
    let st := String.mk (st0.data.map Char.toLower)
    if ¬ (st ∈ nonCancellableStatuses) then
      { c with passed := true,
               details := [("validStatus", "true"), ("currentStatus", st)] }
    else
      { c with reason := "Order status \x27" ++ st ++
                 "\x27 does not allow cancellation",
               recommendation := some (if st = "shipped" then
                   "Contact customer service to arrange return"
                 else "This order has already been processed"),
               riskWeight := 10 }

/-- `checkRateLimit` (lines 415-438). -/
def checkRateLimit (env : ValidationEnv) (userId : String)
    (c : ValidationCheck) : Except String ValidationCheck :=
  match env.countRequests5m userId with
  | .error e => .error e
  | .ok recentRequests =>
    let rateLimit := 50
    if recentRequests < rateLimit then
      .ok { c with passed := true,
                   details := [("requestCount", toString recentRequests),
                               ("remainingRequests", toString (rateLimit - recentRequests))] }
    else
      .ok { c with reason := "Rate limit exceeded",
                   recommendation := some "Please slow down your requests",
                   riskWeight := 30 }

/-- `executeValidationRule` (lines 137-176): dispatch on the rule name; a
rule exception becomes a failing check with riskWeight 50. -/
def executeValidationRule (env : ValidationEnv) (ruleName : String)
    (aiResponse : AIIntent) (ctx : ReqContext) : ValidationCheck :=
  let c0 : ValidationCheck :=
    { name := ruleName, passed := false, reason := "", details := [],
      riskWeight := 25, recommendation := none }
  let res : Except String ValidationCheck :=
    match ruleName with
    | "orderExists" => .ok (checkOrderExists env aiResponse.orderId c0)
    | "orderBelongsToUser" =>
      .ok (checkOrderBelongsToUser env aiResponse.orderId ctx.userId c0)
    | "orderIsCancellable" => .ok (checkOrderIsCancellable env aiResponse.orderId c0)
    | "noRecentCancellations" => checkRecentCancellations env ctx.userId c0
    | "validOrderStatus" => .ok (checkOrderStatus env aiResponse.orderId c0)
    | "rateLimitCheck" => checkRateLimit env ctx.userId c0
    | _ => .ok { c0 with reason := "Unknown validation rule: " ++ ruleName }
  match res with
  | .ok c => c
  | .error e =>
    { c0 with reason := "Rule execution error: " ++ e, riskWeight := 50 }

/-- The rule loop of `validateAction` (lines 72-91): every rule runs, in
order; a failing check flips `isValid`, appends its reason and adds its
risk weight (`checkResult.riskWeight || 25`). -/
def runRules (env : ValidationEnv) (aiResponse : AIIntent) (ctx : ReqContext) :
    List String → ValidationResult → ValidationResult
  | [], acc => acc
  | rule :: rest, acc =>
    let checkResult := executeValidationRule env rule aiResponse ctx
    let acc := { acc with checks := acc.checks ++ [checkResult] }
    let acc :=
      if checkResult.passed then acc
      else
        { acc with isValid := false,
                   reasons := acc.reasons ++ [checkResult.reason],
                   riskScore := acc.riskScore +
                     (if checkResult.riskWeight = 0 then 25 else checkResult.riskWeight) }
    let acc :=
      match checkResult.recommendation with
      | some rec => { acc with recommendations := acc.recommendations ++ [rec] }
      | none => acc
    runRules env aiResponse ctx rest acc

/-- `/^(test|demo|sample)/i`, `/^(123|000|999)/`, `/^[a-z]+$/i` — the
suspicious order-id patterns of `assessAdditionalRisks`. -/
def suspiciousOrderIdPattern (oid : String) : Bool :=
  isPrefixAt "test".data (oid.data.map Char.toLower) ||
  isPrefixAt "demo".data (oid.data.map Char.toLower) ||
  isPrefixAt "sample".data (oid.data.map Char.toLower) ||
  isPrefixAt "123".data oid.data || isPrefixAt "000".data oid.data ||
  isPrefixAt "999".data oid.data ||
  (¬ oid.isEmpty && oid.data.all Char.isAlpha)

/-- `assessAdditionalRisks` (lines 443-476): +20 for a low-confidence
cancellation, +25 for more than 10 audit events in the last minute, +15
for a suspicious order-id pattern.  The 1-minute count can throw, which
propagates to `validateAction`'s outer catch. -/
def assessAdditionalRisks (env : ValidationEnv) (r : ValidationResult)
    (aiResponse : AIIntent) (ctx : ReqContext) : Except String ValidationResult :=
  let r :=
    if aiResponse.confidence < mkRat 1 2 ∧ aiResponse.action = "order_cancellation" then
      { r with riskScore := r.riskScore + 20,
               recommendations := r.recommendations ++
                 ["Low AI confidence - manual review recommended"] }
    else r
  match env.countActivity1m ctx.userId ctx.sessionId with
  | .error e => .error e
  | .ok recentActivity =>
    let r :=
      if recentActivity > 10 then
        { r with riskScore := r.riskScore + 25,
                 recommendations := r.recommendations ++
                   ["High activity detected - potential automation"] }
      else r
    let r :=
      if optTruthy aiResponse.orderId ∧
         suspiciousOrderIdPattern (jsStr aiResponse.orderId) then
        { r with riskScore := r.riskScore + 15,
                 recommendations := r.recommendations ++
                   ["Suspicious order ID pattern detected"] }
      else r
    .ok r

/-- The initial `validationResult` object of `validateAction`. -/
def initValidationResult (aiResponse : AIIntent) (ctx : ReqContext) : ValidationResult :=
  { isValid := true, action := aiResponse.action, orderId := aiResponse.orderId,
    userId := ctx.userId, sessionId := ctx.sessionId, checks := [],
    reasons := [], recommendations := [], riskScore := 0,
    rulesApplied := validationRules aiResponse.action }

/-- `validateAction` (lines 47-127): run the rules, clamp the accumulated
risk to 100, then add the supplemental risks; any exception inside the try
block yields the fail-closed error result (isValid false, riskScore 100,
empty checks).  The audit write `logValidationResult` swallows its own
errors and does not affect the returned value. -/
def validateAction (env : ValidationEnv) (aiResponse : AIIntent)
    (ctx : ReqContext) : ValidationResult :=
  let core : Except String ValidationResult :=
    let r1 := runRules env aiResponse ctx (validationRules aiResponse.action)
                (initValidationResult aiResponse ctx)
    let r2 := { r1 with riskScore := min r1.riskScore 100 }
    assessAdditionalRisks env r2 aiResponse ctx
  match core with
  | .ok r => r
  | .error e =>
    { isValid := false, action := aiResponse.action, orderId := aiResponse.orderId,
      userId := ctx.userId, sessionId := ctx.sessionId, checks := [],
      reasons := ["Validation error: " ++ e],
      recommendations := ["Contact system administrator"],
      riskScore := 100, rulesApplied := [] }

/-! ## AI Service — `aiService.js`

The provider call and the JSON-extraction try-chain (whole-text parse,
fenced ```json block, generic fenced block) are modelled by their outcome:
either the provider threw, or no strategy produced JSON, or some strategy
produced a JSON object whose relevant fields are captured in `PJson`.
Everything after that point (field validation, enum check, confidence
clamping, defaults, fallback) is translated directly. -/

/-- The parsed confidence field: a JS number, or a value whose
`parseFloat` is `NaN`. -/
inductive JNum where
  | num (q : ℚ)
  | nonNumeric
deriving DecidableEq, Repr

/-- `parseFloat(x) || 0`. -/
def parseFloatOr0 : JNum → ℚ
  | .num q => q
  | .nonNumeric => 0

/-- The JSON object handed to the validation part of `parseAIResponse`. -/
structure PJson where
  action : Option String
  message : Option String
  confidence : Option JNum
  orderId : Option String
  productName : Option String
  requiresConfirmation : Option Bool
deriving Repr

/-- Outcome of the JSON-extraction try-chain over the raw model text. -/
inductive RawParse where
  | notJson
  | parsed (j : PJson)

/-- The closed `validActions` enum. -/
def validActions : List String :=
  ["order_cancellation", "status_check", "list_orders", "refund_status",
   "track_order", "track_specific_order", "cancel_orders",
   "confirm_cancellation", "cancel_abort", "general_inquiry",
   "clarification_needed", "error"]

/-- `parsedJson.x || null`. -/
def jsOrNull (o : Option String) : Option String :=
  if optTruthy o then o else none

/-- The confidence normalisation of `parseAIResponse` (lines 177-187):
`Math.max(0, Math.min(1, parseFloat(confidence) || 0))` when the field is
present, then `parsedJson.confidence || 0.5` (a clamped 0 — and an absent
field — become 0.5). -/
def parsedConfidence (o : Option JNum) : ℚ :=
  match o.map (fun v => max 0 (min 1 (parseFloatOr0 v))) with
  | some c => if c = 0 then mkRat 1 2 else c
  | none => mkRat 1 2

/-- `parseAIResponse` (lines 125-192): non-JSON raw text is a hard error;
`action`/`message` must be truthy; `action` must be in the enum;
`confidence` is clamped into [0,1] (with `|| 0.5` defaulting);
`requiresConfirmation` defaults to true unless explicitly false. -/
def parseAIResponse (raw : RawParse) : Except String AIIntent :=
  match raw with
  | .notJson => .error "Failed to parse AI response as JSON"
  | .parsed j =>
    if ¬ optTruthy j.action || ¬ optTruthy j.message then
      .error "Missing required fields in AI response"
    else if ¬ (jsStr j.action ∈ validActions) then
      .error ("Invalid action in AI response: " ++ jsStr j.action)
    else
      .ok { action := jsStr j.action, orderId := jsOrNull j.orderId,
            productName := jsOrNull j.productName,
            confidence := parsedConfidence j.confidence,
            message := jsStr j.message,
            requiresConfirmation := j.requiresConfirmation ≠ some false }

/-- `/^[A-Z0-9\-]{3,20}$/i` — the order-id shape check of
`validateAIResponse`. -/
def orderIdFormatOk (oid : String) : Bool :=
  3 ≤ oid.length && oid.length ≤ 20 && oid.data.all idClassChar

/-- The result of `validateAIResponse`. -/
structure AIRespValidation where
  isValid : Bool
  issues : List String
deriving DecidableEq, Repr

/-- `validateAIResponse` (lines 201-250): business checks on the parsed
intent against the sanitized user message. -/
def validateAIResponse (originalMessage : String) (ai : AIIntent) : AIRespValidation :=
  let issues : List String := []
  let issues :=
    if ai.action = "order_cancellation" ∧ ¬ optTruthy ai.orderId then
      issues ++ ["Order ID required for this action but not provided"]
    else issues
  let issues :=
    if ai.action = "status_check" ∧ ¬ optTruthy ai.orderId ∧ ¬ optTruthy ai.productName then
      issues ++ ["Status check requires either Order ID or Product Name"]
    else issues
  let issues :=
    if optTruthy ai.orderId ∧ ¬ orderIdFormatOk (jsStr ai.orderId) then
      issues ++ ["Order ID format is invalid"]
    else issues
  let issues :=
    if ai.confidence < mkRat 3 10 ∧ ai.action = "order_cancellation" then
      issues ++ ["Confidence too low for order cancellation action"]
    else issues
  let issues :=
    if ai.message.length < 10 then
      issues ++ ["Response message is too short or missing"]
    else issues
  let issues :=
    if optTruthy ai.orderId ∧ ¬ originalMessage.isEmpty then
      let extracted := extractOrderIds originalMessage
      if extracted.orderIds.length > 0 ∧
         ¬ (toUpperStr (jsStr ai.orderId) ∈ extracted.orderIds) then
        issues ++ ["AI response contains order ID not found in user message"]
      else issues
    else issues
  { isValid := issues.isEmpty, issues := issues }

/-- `validateOrderInput` (sanitizeInput.js lines 101-120): sanitize, then
apply the Joi schema (1-1000 chars, all from the allowed class). -/
def joiAllowedChar (c : Char) : Bool :=
  c.isAlpha || c.isDigit || isWsChar c ||
  c ∈ ['-', '#', '.', ',', '!', '?', '$', ':', '(', ')', '_']

structure OrderInputValidation where
  isValid : Bool
  sanitized : String
  warnings : List String
  riskScore : Option Nat
deriving DecidableEq, Repr

def validateOrderInput (input : Option String) : OrderInputValidation :=
  let sr := sanitizeInput input none
  { isValid := 1 ≤ sr.sanitized.length && sr.sanitized.length ≤ 1000 &&
      sr.sanitized.data.all joiAllowedChar,
    sanitized := sr.sanitized, warnings := sr.warnings, riskScore := sr.riskScore }

/-- The safe fallback `error` intent returned by `processMessage`'s catch. -/
def fallbackErrorIntent : AIIntent :=
  { action := "error", orderId := none, productName := none, confidence := 0,
    message := "I apologize, but I encountered an issue processing your request. Please try again or contact support.",
    requiresConfirmation := false }

/-- The cache-miss tail of `processMessage`: call the provider, parse its
output, validate the parsed intent; any failure yields the safe fallback. -/
def generateAndParse (sanitized : String) (gen : Except String RawParse) : AIIntent :=
  match gen with
  | .error _ => fallbackErrorIntent
  | .ok raw =>
    match parseAIResponse raw with
    | .error _ => fallbackErrorIntent
    | .ok parsed =>
      if ¬ (validateAIResponse sanitized parsed).isValid then
        fallbackErrorIntent
      else parsed

/-- `processMessage` (aiService.js lines 29-118) with the try/catch
flattened: every throw site returns the fallback error intent.  `cached`
models the Redis AI-response cache lookup; `gen` the provider call
composed with the JSON extraction (`Except.error` = provider failure). -/
def processMessage (userMessage : Option String) (cached : Option AIIntent)
    (bypassCache : Bool) (gen : Except String RawParse) : AIIntent :=
  let v := validateOrderInput userMessage
  if ¬ v.isValid then fallbackErrorIntent
  else if (match v.riskScore with | some r => decide (r > 70) | none => false) then
    fallbackErrorIntent
  else
    match cached with
    | some c => if bypassCache then generateAndParse v.sanitized gen else c
    | none => generateAndParse v.sanitized gen

/-! ## Chat Controller — `src/server/controllers/chatController.js`

The `orders` collection is a `List DirectOrder`; `updateOne` updates the
first document matching the filter and reports Mongo's
`matchedCount`/`modifiedCount` (modified only when the update actually
changes the document).  A `PipeEvent` trace records, in execution order,
every Action-Validator run and every write issued against the order
store, so that the validation-precedes-mutation ordering property can be
stated.  Display-only response formatting (buttons, tracking summaries,
emoji order cards) of the read-only handlers is elided; no handler other
than `performOrderCancellation` and `handleConfirmCancellation` writes to
the order store in the source. -/

/-- Observable pipeline events, in execution order. -/
inductive PipeEvent where
  | validatorRun (action : String) (isValid : Bool)
  | dbUpdate (orderId : String) (matched modified : Bool)
deriving DecidableEq, Repr

/-- Mongo `updateOne`: update the first matching document.
Returns (new collection, matchedCount > 0, modifiedCount > 0). -/
def updateOne (db : List DirectOrder) (filter : DirectOrder → Bool)
    (apply : DirectOrder → DirectOrder) : List DirectOrder × Bool × Bool :=
  match db with
  | [] => ([], false, false)
  | d :: rest =>
    if filter d then
      let d2 := apply d
      (d2 :: rest, true, decide (d2 ≠ d))
    else
      let (r, m, mo) := updateOne rest filter apply
      (d :: r, m, mo)

/-- Mongo `findOne`. -/
def findOne (db : List DirectOrder) (filter : DirectOrder → Bool) : Option DirectOrder :=
  match db with
  | [] => none
  | d :: rest => if filter d then some d else findOne rest filter

/-- `performOrderCancellation` (chatController.js lines 108-152): an
unconditional `updateOne({orderId}, {$set: {status:'cancelled', ...}})`;
throws when `modifiedCount` is zero.  Note: the filter constrains neither
the owner nor the current status. -/
def performOrderCancellation (db : List DirectOrder) (orderId _userId reason : String)
    (now : Nat) : Except String Unit × List DirectOrder × List PipeEvent :=
  let (db2, matched, modified) :=
    updateOne db (fun d => d.orderId = orderId)
      (fun d => { d with status := "cancelled", cancelledAt := some now,
                         cancellationReason := some reason, updatedAt := some now })
  if modified then (.ok (), db2, [.dbUpdate orderId matched modified])
  else (.error "Order not found or already cancelled", db2,
        [.dbUpdate orderId matched modified])

/-- One conversation-history message. -/
structure ChatMsg where
  role : String
  content : String
deriving DecidableEq, Repr

/-- The regex `/order\s+(ORD-\d{4}-\d{3})/i` of
`handleConfirmationResponse`: capture the order token after the word
"order" (the captured text keeps its original case). -/
def confirmOrderCaptureAt (s : List Char) : Option (List Char) := do
  let r ← litCI "order".data s
  let r ← skipWsPlus r
  let _ ← litCI "ord".data r
  match r.drop 3 with
  | '-' :: r2 =>
    if (r2.take 4).length = 4 ∧ (r2.take 4).all Char.isDigit then
      match r2.drop 4 with
      | '-' :: r3 =>
        if (r3.take 3).length = 3 ∧ (r3.take 3).all Char.isDigit then
          some (r.take 12)
        else none
      | _ => none
    else none
  | _ => none

def findOrdCapture : List Char → Option String
  | [] => none
  | c :: cs =>
    match confirmOrderCaptureAt (c :: cs) with
    | some cap => some (String.mk cap)
    | none => findOrdCapture cs

/-- The anchored confirmation and denial phrase sets
(`/^(yes|yeah|y|confirm|ok|okay|sure|proceed|do it|go ahead)$/i` and
`/^(no|nope|n|cancel|abort|stop|never mind|nevermind)$/i`). -/
def confirmationPhrases : List String :=
  ["yes", "yeah", "y", "confirm", "ok", "okay", "sure", "proceed", "do it", "go ahead"]

def denialPhrases : List String :=
  ["no", "nope", "n", "cancel", "abort", "stop", "never mind", "nevermind"]

/-- Pending cancellation orders harvested from the last five history
entries, most recent first: assistant messages containing "confirm" with
an `order ORD-xxxx-xxx` token. -/
def pendingCancellationOrders (history : List ChatMsg) : List String :=
  ((history.drop (history.length - 5)).reverse).filterMap (fun m =>
    if m.role = "assistant" ∧ ¬ m.content.isEmpty ∧
       containsSub m.content.data "confirm".data then
      findOrdCapture m.content.data
    else none)

/-- The value returned by `handleConfirmationResponse`. -/
structure ConfirmationOutcome where
  handled : Bool
  action : Option String
  orderId : Option String
  message : Option String
deriving DecidableEq, Repr

/-- `handleConfirmationResponse` (lines 14-105): a bare yes/no reply to a
pending cancellation prompt.  A confirmation goes straight to
`performOrderCancellation` — no Action-Validator run occurs on this path. -/
def handleConfirmationResponse (message : String) (history : List ChatMsg)
    (userId : String) (db : List DirectOrder) (now : Nat) :
    ConfirmationOutcome × List DirectOrder × List PipeEvent :=
  let lowerMessage := String.mk (trimChars (message.data.map Char.toLower))
  let isConfirmation := lowerMessage ∈ confirmationPhrases
  let isDenial := lowerMessage ∈ denialPhrases
  if ¬ isConfirmation ∧ ¬ isDenial then
    ({ handled := false, action := none, orderId := none, message := none }, db, [])
  else
    match pendingCancellationOrders history with
    | [] => ({ handled := false, action := none, orderId := none, message := none }, db, [])
    | orderId :: _ =>
      if isDenial then
        ({ handled := true, action := some "cancellation_denied",
           orderId := some orderId,
           message := some ("Understood. I won\x27t cancel order " ++ orderId ++
             ". Is there anything else I can help you with?") }, db, [])
      else
        match performOrderCancellation db orderId userId
            "Customer requested cancellation via chat" now with
        | (.ok _, db2, ev) =>
          ({ handled := true, action := some "order_cancelled",
             orderId := some orderId,
             message := some ("Perfect! I\x27ve successfully cancelled order " ++
               orderId ++ ". You should see the updated status shortly.") }, db2, ev)
        | (.error _, db2, ev) =>
          ({ handled := true, action := some "cancellation_failed",
             orderId := some orderId,
             message := some ("I\x27m sorry, but I encountered an error while cancelling order " ++
               orderId ++ ". Please try again or contact customer support.") }, db2, ev)

/-- A pipeline response (HTTP status plus the envelope fields the claims
are about). -/
structure ChatOutcome where
  httpStatus : Nat
  action : Option String
  orderId : Option String
  message : Option String
deriving DecidableEq, Repr

/-- The regex `/confirm_cancel_([A-Z0-9-]+)/` (case-sensitive) of
`handleConfirmCancellation`. -/
def confirmCancelCaptureAt (s : List Char) : Option String := do
  let r ← litCS "confirm_cancel_".data s
  match takeRun (fun c => c.isUpper || c.isDigit || c = '-') r with
  | (0, _) => none
  | (n, _) => some (String.mk (r.take n))

def findConfirmCancelCapture : List Char → Option String
  | [] => none
  | c :: cs =>
    match confirmCancelCaptureAt (c :: cs) with
    | some cap => some cap
    | none => findConfirmCancelCapture cs

/-- `handleConfirmCancellation` (lines 1223-1305): on a
`confirm_cancel_<ID>` click, run
`updateOne({orderId, customerId}, {$set: {status:'cancelled', ...}})` —
the filter does not constrain the current status — and report not-found /
not-modified / success; otherwise handle abort phrasing; otherwise pass
the intent through. -/
def handleConfirmCancellation (userId : String) (ai : AIIntent)
    (originalMessage : String) (_sessionId : String) (db : List DirectOrder)
    (now : Nat) : ChatOutcome × List DirectOrder × List PipeEvent :=
  let fallthrough : ChatOutcome × List DirectOrder × List PipeEvent :=
    if containsSub originalMessage.data "cancel_abort".data ||
       containsSub (originalMessage.data.map Char.toLower) "no".data ||
       containsSub (originalMessage.data.map Char.toLower) "keep".data then
      ({ httpStatus := 200, action := some ai.action, orderId := ai.orderId,
         message := some "Cancellation aborted. Your order will remain active. Is there anything else I can help you with?" },
       db, [])
    else
      ({ httpStatus := 200, action := some ai.action, orderId := ai.orderId,
         message := some ai.message }, db, [])
  if containsSub originalMessage.data "confirm_cancel_".data then
    match findConfirmCancelCapture originalMessage.data with
    | some orderId =>
      let (db2, matched, modified) :=
        updateOne db (fun d => d.orderId = orderId ∧ d.customerId = some userId)
          (fun d => { d with status := "cancelled", cancelledAt := some now,
                             cancelledBy := some userId })
      let ev := [PipeEvent.dbUpdate orderId matched modified]
      if ¬ matched then
        ({ httpStatus := 200, action := some ai.action, orderId := ai.orderId,
           message := some ("I couldn\x27t find order " ++ orderId ++
             " to cancel. Please contact customer service.") }, db2, ev)
      else if ¬ modified then
        ({ httpStatus := 200, action := some ai.action, orderId := ai.orderId,
           message := some ("Order " ++ orderId ++
             " could not be cancelled. It may already be cancelled or in a non-cancellable status.") },
         db2, ev)
      else
        ({ httpStatus := 200, action := some ai.action, orderId := ai.orderId,
           message := some ("✅ **Order Cancelled Successfully**\n\nOrder **" ++ orderId ++
             "** has been cancelled.\n\nYou will receive a refund within 3-5 business days. A confirmation email has been sent to your registered email address.\n\nIs there anything else I can help you with?") },
         db2, ev)
    | none => fallthrough
  else fallthrough

/-! ### `detectProductSearch` and the message route -/

/-- Capture the rest of the current line (JS `(.+)` greedy, at least one
non-terminator char). -/
def takeLine : List Char → List Char
  | [] => []
  | c :: cs => if c = '\n' || c = '\r' then [] else c :: takeLine cs

/-- Leftmost `lit(.+)` match: the capture after the literal, greedy to the
end of the line. -/
def litThenRest (lit : List Char) : List Char → Option (List Char)
  | [] => none
  | c :: cs =>
    match litCI lit (c :: cs) with
    | some r =>
      let cap := takeLine r
      if cap.isEmpty then litThenRest lit cs else some cap
    | none => litThenRest lit cs

/-- Index (from the right) of the last position `≥ 1` in the line where
`lit` matches; returns the capture before it (JS greedy `(.+)lit`). -/
def lastLitIndex (lit : List Char) (line : List Char) : Option Nat :=
  let rec go : Nat → Option Nat
    | 0 => none
    | j + 1 =>
      match litCI lit (line.drop (j + 1)) with
      | some _ => some (j + 1)
      | none => go j
  go (line.length - 1)

/-- `(.+)lit` on the first line that admits it: capture up to the last
occurrence of `lit` at index ≥ 1 (single-line greedy semantics;
fuel-bounded line iteration). -/
def capThenLitF (lit : List Char) : Nat → List Char → Option (List Char)
  | 0, _ => none
  | _, [] => none
  | fuel + 1, c :: cs =>
    let line := takeLine (c :: cs)
    match lastLitIndex lit line with
    | some j => some (line.take j)
    | none => capThenLitF lit fuel ((c :: cs).drop (line.length + 1))

def capThenLit (lit : List Char) (s : List Char) : Option (List Char) :=
  capThenLitF lit (s.length + 1) s

/-- `lit1(.+)lit2` leftmost-greedy on the line containing `lit1`. -/
def litCapLit (lit1 lit2 : List Char) : List Char → Option (List Char)
  | [] => none
  | c :: cs =>
    match litCI lit1 (c :: cs) with
    | some r =>
      let line := takeLine r
      (match lastLitIndex lit2 line with
       | some j => some (line.take j)
       | none => litCapLit lit1 lit2 cs)
    | none => litCapLit lit1 lit2 cs

/-- The stop-word list of `detectProductSearch`'s cleanup regex
`/\b(my|the|order|orders|status|for)\b/gi` (alternation order as written;
a failing trailing `\b` backtracks into the next alternative). -/
def productStopWords : List String := ["my", "the", "order", "orders", "status", "for"]

def tryStopWords : List String → List Char → Option (List Char)
  | [], _ => none
  | w :: ws, s =>
    match litCI w.data s with
    | some r => if boundaryAfter r then some r else tryStopWords ws s
    | none => tryStopWords ws s

/-- Remove every whole-word stop word (fuel-bounded scan). -/
def removeStopWordsF : Nat → Option Char → List Char → List Char
  | 0, _, s => s
  | fuel + 1, prev, s =>
    match s with
    | [] => []
    | c :: cs =>
      if boundaryBefore prev then
        match tryStopWords productStopWords s with
        | some rest => removeStopWordsF fuel (some 'a') rest
        | none => c :: removeStopWordsF fuel (some c) cs
      else c :: removeStopWordsF fuel (some c) cs

def removeStopWords (s : List Char) : List Char :=
  removeStopWordsF (s.length + 1) none s

/-- `detectProductSearch` (lines 1328-1361): ordered product-search
patterns; each candidate is cleaned of stop words and extra whitespace and
accepted when longer than two chars, not all digits, and not an `ord-`
token.  A rejected candidate falls through to the next pattern. -/
def detectProductSearch (message : String) : Option String :=
  let candidates : List (Option (List Char)) :=
    [litThenRest "status of ".data message.data,
     litThenRest "status for ".data message.data,
     capThenLit " status".data message.data,
     litThenRest "check ".data message.data,
     litThenRest "find ".data message.data,
     litCapLit "show ".data " order".data message.data,
     capThenLit " order status".data message.data]
  let rec pick : List (Option (List Char)) → Option String
    | [] => none
    | none :: rest => pick rest
    | some cap :: rest =>
      let productName := trimChars (collapseWs (removeStopWords cap))
      if productName.length > 2 ∧
         ¬ (¬ productName.isEmpty ∧ productName.all Char.isDigit) ∧
         (litCI "ord-".data productName).isNone then
        some (String.mk productName)
      else pick rest
  pick candidates

/-- The actions subject to validation in the route
(`['order_cancellation','status_check','list_orders','refund_status','track_order','cancel_orders','confirm_cancellation']`). -/
def validatedActions : List String :=
  ["order_cancellation", "status_check", "list_orders", "refund_status",
   "track_order", "cancel_orders", "confirm_cancellation"]

/-- The action-specific response enhancement switch (lines 313-354).  Only
`confirm_cancellation` reaches an order-store write
(`handleConfirmCancellation`); `order_cancellation` and every other case
read the store at most and produce display content (elided — the response
carries the intent's own fields). -/
def dispatchAction (userId : String) (ai : AIIntent) (message sessionId : String)
    (db : List DirectOrder) (now : Nat) (ev : List PipeEvent) :
    ChatOutcome × List DirectOrder × List PipeEvent :=
  match ai.action with
  | "confirm_cancellation" =>
    let (resp, db2, ev2) := handleConfirmCancellation userId ai message sessionId db now
    (resp, db2, ev ++ ev2)
  | _ =>
    ({ httpStatus := 200, action := some ai.action, orderId := ai.orderId,
       message := some ai.message }, db, ev)

/-- The inbound request envelope. -/
structure ChatRequest where
  message : Option String
  sessionId : Option String
  userId : Option String
deriving DecidableEq, Repr

/-- `router.post('/message')` (lines 166-423): field validation, length
cap, user-level rate limit, the confirmation-response shortcut, the
product-search fallback, the AI service, validation of order actions, and
the action switch.  `rateAllowed` models `cacheService.checkRateLimit`;
`cached`/`bypassCache`/`gen` are the AI-service collaborators as in
`processMessage`. -/
def processChatMessage (req : ChatRequest) (history : List ChatMsg)
    (db : List DirectOrder) (env : ValidationEnv) (rateAllowed : Bool)
    (cached : Option AIIntent) (bypassCache : Bool) (gen : Except String RawParse)
    (now : Nat) : ChatOutcome × List DirectOrder × List PipeEvent :=
  match req.message, req.sessionId, req.userId with
  | some msg, some sid, some uid =>
    if msg.isEmpty ∨ sid.isEmpty ∨ uid.isEmpty then
      ({ httpStatus := 400, action := none, orderId := none,
         message := some "Missing required fields: message, sessionId, userId" }, db, [])
    else if msg.length > 1000 then
      ({ httpStatus := 400, action := none, orderId := none,
         message := some "Message too long (max 1000 characters)" }, db, [])
    else if ¬ rateAllowed then
      ({ httpStatus := 429, action := none, orderId := none,
         message := some "Rate limit exceeded" }, db, [])
    else
      match handleConfirmationResponse msg history uid db now with
      | (conf, db1, ev1) =>
        if conf.handled then
          ({ httpStatus := 200, action := conf.action, orderId := conf.orderId,
             message := conf.message }, db1, ev1)
        else
          match detectProductSearch msg with
          | some productName =>
            -- read-only product-status fallback (display content elided)
            ({ httpStatus := 200, action := some "status_check", orderId := none,
               message := some ("Searching for " ++ productName ++ "...") }, db, [])
          | none =>
            let ai := processMessage (some msg) cached bypassCache gen
            if ai.action ∈ validatedActions then
              let vr := validateAction env ai { userId := uid, sessionId := sid }
              let ev := [PipeEvent.validatorRun ai.action vr.isValid]
              if ¬ vr.isValid then
                ({ httpStatus := 200, action := some "error", orderId := ai.orderId,
                   message := some ("I\x27m sorry, but I can\x27t proceed with this request: " ++
                     vr.reasons.headD "") }, db, ev)
              else
                dispatchAction uid ai msg sid db now ev
            else
              dispatchAction uid ai msg sid db now []
  | _, _, _ =>
    ({ httpStatus := 400, action := none, orderId := none,
       message := some "Missing required fields: message, sessionId, userId" }, db, [])

/-! ## Lemmas about the validator's structure -/

/-- The rule loop appends exactly one check per listed rule, in order. -/
theorem runRules_checks (env : ValidationEnv) (ai : AIIntent) (ctx : ReqContext)
    (rules : List String) (acc : ValidationResult) :
    (runRules env ai ctx rules acc).checks =
      acc.checks ++ rules.map (fun r => executeValidationRule env r ai ctx) := by
  induction rules generalizing acc with
  | nil => simp [runRules]
  | cons rule rest ih =>
    simp only [runRules, List.map_cons]
    split <;> (try split) <;> simp [ih, List.append_assoc]

/-- After the rule loop, `isValid` is the conjunction of the accumulated
flag with every executed rule's `passed`. -/
theorem runRules_isValid (env : ValidationEnv) (ai : AIIntent) (ctx : ReqContext)
    (rules : List String) (acc : ValidationResult) :
    (runRules env ai ctx rules acc).isValid =
      (acc.isValid && (rules.map (fun r => executeValidationRule env r ai ctx)).all (·.passed)) := by
  induction rules generalizing acc with
  | nil => simp [runRules]
  | cons rule rest ih =>
    simp only [runRules, List.map_cons, List.all_cons]
    split <;> (try split) <;> simp_all [ih]

/-- When the 1-minute activity count succeeds, `assessAdditionalRisks`
succeeds, leaves `checks` and `isValid` untouched and adds at most 60
supplemental risk (20 + 25 + 15). -/
theorem assessAdditionalRisks_ok (env : ValidationEnv) (r : ValidationResult)
    (ai : AIIntent) (ctx : ReqContext) (n : Nat)
    (h : env.countActivity1m ctx.userId ctx.sessionId = .ok n) :
    ∃ r', assessAdditionalRisks env r ai ctx = .ok r' ∧
      r'.checks = r.checks ∧ r'.isValid = r.isValid ∧
      r'.riskScore ≤ r.riskScore + 60 := by
  unfold assessAdditionalRisks
  repeat' split
  all_goals first
    | (exfalso; simp_all; done)
    | (refine ⟨_, rfl, by simp, by simp, by simp; try omega⟩)

/-- A failing 1-minute activity count propagates out of
`assessAdditionalRisks` (into `validateAction`'s catch). -/
theorem assessAdditionalRisks_error (env : ValidationEnv) (r : ValidationResult)
    (ai : AIIntent) (ctx : ReqContext) (e : String)
    (h : env.countActivity1m ctx.userId ctx.sessionId = .error e) :
    assessAdditionalRisks env r ai ctx = .error e := by
  unfold assessAdditionalRisks
  simp [h]

/-- On a normally-completing run, `validateAction`'s check list is exactly
the listed rules' results in order, and `isValid` is their conjunction. -/
theorem validateAction_checks_isValid (env : ValidationEnv) (ai : AIIntent)
    (ctx : ReqContext) (n : Nat)
    (h : env.countActivity1m ctx.userId ctx.sessionId = .ok n) :
    (validateAction env ai ctx).checks =
      (validationRules ai.action).map (fun rule => executeValidationRule env rule ai ctx) ∧
    (validateAction env ai ctx).isValid =
      ((validationRules ai.action).map (fun rule => executeValidationRule env rule ai ctx)).all
        (·.passed) := by
  unfold validateAction
  obtain ⟨r', hok, hch, hval, -⟩ :=
    assessAdditionalRisks_ok env
      { runRules env ai ctx (validationRules ai.action) (initValidationResult ai ctx) with
        riskScore :=
          min (runRules env ai ctx (validationRules ai.action) (initValidationResult ai ctx)).riskScore
            100 }
      ai ctx n h
  rw [hok]
  simp only [hch, hval]
  constructor
  · rw [runRules_checks]
    simp [initValidationResult]
  · rw [runRules_isValid]
    simp [initValidationResult]

/-! ## Claims about the Action Validator -/

/-- C10: `validateAction` is total and fails closed: when an unexpected
internal error occurs during validation (here: the 1-minute activity count
of `assessAdditionalRisks` throwing), the returned result has
`isValid = false`, `riskScore = 100`, empty `checks`, and the error message
among the `reasons`. -/
theorem C10_validateAction_fails_closed (env : ValidationEnv) (ai : AIIntent)
    (ctx : ReqContext) (e : String)
    (h : env.countActivity1m ctx.userId ctx.sessionId = .error e) :
    (validateAction env ai ctx).isValid = false ∧
    (validateAction env ai ctx).riskScore = 100 ∧
    (validateAction env ai ctx).checks = [] ∧
    (validateAction env ai ctx).reasons = ["Validation error: " ++ e] := by
  unfold validateAction
  rw [assessAdditionalRisks_error _ _ _ _ _ h]
  simp

def c10Env : ValidationEnv :=
  { orderCache := fun _ => none, ordersColl := fun _ => none,
    nodeEnv := "production",
    countCancellations24h := fun _ => .ok 0,
    countRequests5m := fun _ => .ok 0,
    countActivity1m := fun _ _ => .error "mongo unavailable" }

def c10Intent : AIIntent :=
  { action := "order_cancellation", orderId := some "ORD-2024-001",
    productName := none, confidence := 1, message := "Cancelling your order",
    requiresConfirmation := true }

def c10Ctx : ReqContext := { userId := "bob", sessionId := "sess-1" }

/-- C10 witness: the fail-closed error result at a concrete failing
environment. -/
theorem C10_witness_activity_error :
    (validateAction c10Env c10Intent c10Ctx).isValid = false ∧
    (validateAction c10Env c10Intent c10Ctx).riskScore = 100 ∧
    (validateAction c10Env c10Intent c10Ctx).checks = [] ∧
    (validateAction c10Env c10Intent c10Ctx).reasons =
      ["Validation error: " ++ "mongo unavailable"] :=
  C10_validateAction_fails_closed c10Env c10Intent c10Ctx "mongo unavailable" rfl

/-- C5: on a normally-completing run, `validateAction` executes all listed
rules in order with no short-circuit (the check list is exactly the listed
rules' results, in order), `isValid` is true iff every executed rule
passed (supplemental risk additions never change it), and an action with
no listed rules yields zero checks and `isValid = true`. -/
theorem C5_rules_run_in_order (env : ValidationEnv) (ai : AIIntent)
    (ctx : ReqContext) (n : Nat)
    (h : env.countActivity1m ctx.userId ctx.sessionId = .ok n) :
    (validateAction env ai ctx).checks =
      (validationRules ai.action).map (fun rule => executeValidationRule env rule ai ctx) ∧
    (validateAction env ai ctx).isValid = (validateAction env ai ctx).checks.all (·.passed) ∧
    (validationRules ai.action = [] →
      (validateAction env ai ctx).checks = [] ∧ (validateAction env ai ctx).isValid = true) := by
  obtain ⟨hch, hval⟩ := validateAction_checks_isValid env ai ctx n h
  refine ⟨hch, ?_, ?_⟩
  · rw [hval, hch]
  · intro hnil
    rw [hch, hnil, hval, hnil]
    simp

def c5Env : ValidationEnv :=
  { orderCache := fun _ => none, ordersColl := fun _ => none,
    nodeEnv := "production",
    countCancellations24h := fun _ => .ok 0,
    countRequests5m := fun _ => .ok 0,
    countActivity1m := fun _ _ => .ok 0 }

def c5Intent : AIIntent :=
  { action := "order_cancellation", orderId := some "ORD-2024-009",
    productName := none, confidence := 1, message := "Cancelling your order",
    requiresConfirmation := true }

def c5Ctx : ReqContext := { userId := "bob", sessionId := "sess-1" }

/-- C5 witness at a concrete environment and intent. -/
theorem C5_witness_order_cancellation :
    (validateAction c5Env c5Intent c5Ctx).checks =
      (validationRules c5Intent.action).map
        (fun rule => executeValidationRule c5Env rule c5Intent c5Ctx) ∧
    (validateAction c5Env c5Intent c5Ctx).isValid =
      (validateAction c5Env c5Intent c5Ctx).checks.all (·.passed) ∧
    (validationRules c5Intent.action = [] →
      (validateAction c5Env c5Intent c5Ctx).checks = [] ∧
      (validateAction c5Env c5Intent c5Ctx).isValid = true) :=
  C5_rules_run_in_order c5Env c5Intent c5Ctx 0 rfl

/-- C3 (amended): for an `order_cancellation` intent whose `orderId`
resolves to an existing order owned by a different user, and an execution
environment whose `NODE_ENV` is not `development` (the development
environment bypasses the ownership test), the `orderBelongsToUser` check
fails with riskWeight 100 and `validateAction` returns `isValid = false`. -/
theorem C3_cross_user_ownership_fails (env : ValidationEnv) (ai : AIIntent)
    (ctx : ReqContext) (uidField cidField : Option String) (n : Nat)
    (hdev : env.nodeEnv ≠ "development")
    (hact : ai.action = "order_cancellation")
    (hoid : optTruthy ai.orderId = true)
    (huid : ctx.userId.isEmpty = false)
    (hview : ownershipView env (jsStr ai.orderId) = some (uidField, cidField))
    (hu : uidField ≠ some ctx.userId)
    (hc : cidField ≠ some ctx.userId)
    (hn : env.countActivity1m ctx.userId ctx.sessionId = .ok n) :
    executeValidationRule env "orderBelongsToUser" ai ctx =
      { name := "orderBelongsToUser", passed := false,
        reason := "Order " ++ jsStr ai.orderId ++ " does not belong to user " ++ ctx.userId,
        details := [], riskWeight := 100,
        recommendation := some "Verify user identity and order ownership" } ∧
    (validateAction env ai ctx).isValid = false := by
  have hcheck : executeValidationRule env "orderBelongsToUser" ai ctx =
      { name := "orderBelongsToUser", passed := false,
        reason := "Order " ++ jsStr ai.orderId ++ " does not belong to user " ++ ctx.userId,
        details := [], riskWeight := 100,
        recommendation := some "Verify user identity and order ownership" } := by
    simp [executeValidationRule, checkOrderBelongsToUser, hoid, huid, hview, hu, hc, hdev]
  refine ⟨hcheck, ?_⟩
  have hpassed : (executeValidationRule env "orderBelongsToUser" ai ctx).passed = false := by
    rw [hcheck]
  obtain ⟨-, hval⟩ := validateAction_checks_isValid env ai ctx n hn
  rw [hval, hact]
  simp [validationRules, hpassed]

def c3DevEnv : ValidationEnv :=
  { orderCache := fun oid =>
      if oid = "ORD-2024-001" then
        some { orderId := "ORD-2024-001", userId := "alice", status := "pending",
               cancellationEligible := true }
      else none,
    ordersColl := fun _ => none,
    nodeEnv := "development",
    countCancellations24h := fun _ => .ok 0,
    countRequests5m := fun _ => .ok 0,
    countActivity1m := fun _ _ => .ok 0 }

def c3Intent : AIIntent :=
  { action := "order_cancellation", orderId := some "ORD-2024-001", productName := none,
    confidence := mkRat 9 10, message := "Cancelling your order",
    requiresConfirmation := true }

def c3Ctx : ReqContext := { userId := "bob", sessionId := "sess-1" }

/-- C3 counterexample: with `NODE_ENV = development`, an order owned by
`alice` validates as cancellable for requester `bob` — every check passes
and `isValid = true`, against the claim's "for all values of the execution
environment". -/
theorem C3_counterexample_development_bypass :
    (validateAction c3DevEnv c3Intent c3Ctx).isValid = true ∧
    (validateAction c3DevEnv c3Intent c3Ctx).checks.all (·.passed) = true := by decide

def c3ProdEnv : ValidationEnv := { c3DevEnv with nodeEnv := "production" }

/-- C3 witness: the amended claim at the same store with
`NODE_ENV = production`. -/
theorem C3_witness_production_ownership :
    executeValidationRule c3ProdEnv "orderBelongsToUser" c3Intent c3Ctx =
      { name := "orderBelongsToUser", passed := false,
        reason := "Order ORD-2024-001 does not belong to user bob",
        details := [], riskWeight := 100,
        recommendation := some "Verify user identity and order ownership" } ∧
    (validateAction c3ProdEnv c3Intent c3Ctx).isValid = false :=
  C3_cross_user_ownership_fails c3ProdEnv c3Intent c3Ctx
    (some "alice") none 0 (by decide) rfl (by decide) (by decide) rfl
    (by decide) (by decide) rfl

/-- C4 (amended): the clamp to 100 is applied to the sum of the failing
checks' risk weights before `assessAdditionalRisks` runs, and the
supplemental additions (+20, +25, +15) are not re-clamped, so the final
`riskScore` is bounded by 160 (not 100). -/
theorem C4_riskScore_le_160 (env : ValidationEnv) (ai : AIIntent) (ctx : ReqContext) :
    (validateAction env ai ctx).riskScore ≤ 160 := by
  unfold validateAction
  cases hact : env.countActivity1m ctx.userId ctx.sessionId with
  | error e =>
    rw [assessAdditionalRisks_error _ _ _ _ _ hact]
    simp
  | ok n =>
    obtain ⟨r', hok, -, -, hle⟩ :=
      assessAdditionalRisks_ok env
        { runRules env ai ctx (validationRules ai.action) (initValidationResult ai ctx) with
          riskScore :=
            min (runRules env ai ctx (validationRules ai.action)
              (initValidationResult ai ctx)).riskScore 100 }
        ai ctx n hact
    rw [hok]
    show r'.riskScore ≤ 160
    simp only at hle
    have hmin :
        min (runRules env ai ctx (validationRules ai.action)
          (initValidationResult ai ctx)).riskScore 100 ≤ 100 :=
      Nat.min_le_right _ _
    omega

def c4Env : ValidationEnv :=
  { orderCache := fun _ => none, ordersColl := fun _ => none,
    nodeEnv := "production",
    countCancellations24h := fun _ => .ok 0,
    countRequests5m := fun _ => .ok 0,
    countActivity1m := fun _ _ => .ok 0 }

def c4Intent : AIIntent :=
  { action := "order_cancellation", orderId := some "TEST1", productName := none,
    confidence := mkRat 1 5, message := "Cancelling your order",
    requiresConfirmation := true }

def c4Ctx : ReqContext := { userId := "bob", sessionId := "sess-1" }

/-- C4 counterexample: a low-confidence cancellation of a nonexistent
`TEST`-prefixed order accumulates 175 risk from failing checks (clamped to
100), then +20 and +15 supplemental risk after the clamp: final riskScore
135 > 100. -/
theorem C4_counterexample_riskScore_135 :
    (validateAction c4Env c4Intent c4Ctx).riskScore = 135 ∧
    100 < (validateAction c4Env c4Intent c4Ctx).riskScore := by decide

/-- C6 (amended): a failure of the audit store while counting recent
events does not make the validation path throw, but it does NOT degrade to
"assume zero recent events": the per-rule exception handler converts the
failure into a FAILING check with riskWeight 50 and the error message as
reason, so `isValid` becomes false (fail-closed, not fail-open). -/
theorem C6_count_failure_fails_closed (env : ValidationEnv) (ai : AIIntent)
    (ctx : ReqContext) (e e2 : String) (n : Nat)
    (h1 : env.countCancellations24h ctx.userId = .error e)
    (h2 : env.countRequests5m ctx.userId = .error e2)
    (hn : env.countActivity1m ctx.userId ctx.sessionId = .ok n)
    (hact : ai.action = "order_cancellation") :
    executeValidationRule env "noRecentCancellations" ai ctx =
      { name := "noRecentCancellations", passed := false,
        reason := "Rule execution error: " ++ e, details := [],
        riskWeight := 50, recommendation := none } ∧
    executeValidationRule env "rateLimitCheck" ai ctx =
      { name := "rateLimitCheck", passed := false,
        reason := "Rule execution error: " ++ e2, details := [],
        riskWeight := 50, recommendation := none } ∧
    (validateAction env ai ctx).isValid = false := by
  have hrec : executeValidationRule env "noRecentCancellations" ai ctx =
      { name := "noRecentCancellations", passed := false,
        reason := "Rule execution error: " ++ e, details := [],
        riskWeight := 50, recommendation := none } := by
    simp [executeValidationRule, checkRecentCancellations, h1]
  have hrate : executeValidationRule env "rateLimitCheck" ai ctx =
      { name := "rateLimitCheck", passed := false,
        reason := "Rule execution error: " ++ e2, details := [],
        riskWeight := 50, recommendation := none } := by
    simp [executeValidationRule, checkRateLimit, h2]
  refine ⟨hrec, hrate, ?_⟩
  have hpassed : (executeValidationRule env "noRecentCancellations" ai ctx).passed = false := by
    rw [hrec]
  obtain ⟨-, hval⟩ := validateAction_checks_isValid env ai ctx n hn
  rw [hval, hact]
  simp [validationRules, hpassed]

def c6Env : ValidationEnv :=
  { orderCache := fun oid =>
      if oid = "ORD-2024-001" then
        some { orderId := "ORD-2024-001", userId := "bob", status := "pending",
               cancellationEligible := true }
      else none,
    ordersColl := fun _ => none,
    nodeEnv := "production",
    countCancellations24h := fun _ => .error "db down",
    countRequests5m := fun _ => .error "db down",
    countActivity1m := fun _ _ => .ok 0 }

def c6Intent : AIIntent :=
  { action := "order_cancellation", orderId := some "ORD-2024-001", productName := none,
    confidence := 1, message := "Cancelling your order", requiresConfirmation := true }

def c6Ctx : ReqContext := { userId := "bob", sessionId := "sess-1" }

/-- C6 counterexample: with the audit store down, the user's own
cancellable order fails validation: `noRecentCancellations` is a failing
check with riskWeight 50 ("Rule execution error"), not a passing check
assuming zero recent events. -/
theorem C6_counterexample_failing_store :
    (validateAction c6Env c6Intent c6Ctx).checks.filter
        (fun c => c.name == "noRecentCancellations") =
      [{ name := "noRecentCancellations", passed := false,
         reason := "Rule execution error: db down", details := [],
         riskWeight := 50, recommendation := none }] ∧
    (validateAction c6Env c6Intent c6Ctx).isValid = false := by decide

/-- C6 witness for the amended claim at the concrete failing store. -/
theorem C6_witness_failing_store :
    executeValidationRule c6Env "noRecentCancellations" c6Intent c6Ctx =
      { name := "noRecentCancellations", passed := false,
        reason := "Rule execution error: " ++ "db down", details := [],
        riskWeight := 50, recommendation := none } ∧
    executeValidationRule c6Env "rateLimitCheck" c6Intent c6Ctx =
      { name := "rateLimitCheck", passed := false,
        reason := "Rule execution error: " ++ "db down", details := [],
        riskWeight := 50, recommendation := none } ∧
    (validateAction c6Env c6Intent c6Ctx).isValid = false :=
  C6_count_failure_fails_closed c6Env c6Intent c6Ctx "db down" "db down" 0
    rfl rfl rfl rfl

/-! ## Claims about the AI service -/

/-- The parsed confidence always lies in [0,1]. -/
theorem parsedConfidence_bounds (o : Option JNum) :
    0 ≤ parsedConfidence o ∧ parsedConfidence o ≤ 1 := by
  unfold parsedConfidence
  cases o with
  | none => constructor <;> decide
  | some v =>
    simp only [Option.map_some']
    split
    · constructor <;> decide
    · exact ⟨le_max_left 0 _, max_le (by norm_num) (min_le_left 1 _)⟩

/-- A structured intent is well-formed when its action is in the closed
`validActions` enum and its confidence lies in [0,1]. -/
def intentWellFormed (r : AIIntent) : Prop :=
  r.action ∈ validActions ∧ 0 ≤ r.confidence ∧ r.confidence ≤ 1

/-- Whatever `parseAIResponse` accepts is well-formed. -/
theorem parseAIResponse_ok_wellFormed (raw : RawParse) (r : AIIntent)
    (h : parseAIResponse raw = .ok r) : intentWellFormed r := by
  cases raw with
  | notJson => exact Except.noConfusion h
  | parsed j =>
    simp only [parseAIResponse] at h
    split at h
    · exact Except.noConfusion h
    · split at h
      · exact Except.noConfusion h
      · rename_i hmem
        injection h with h
        subst h
        refine ⟨?_, parsedConfidence_bounds j.confidence⟩
        simpa using hmem

theorem fallbackErrorIntent_wellFormed : intentWellFormed fallbackErrorIntent :=
  ⟨by decide, by decide, by decide⟩

theorem generateAndParse_wellFormed (s : String) (gen : Except String RawParse) :
    intentWellFormed (generateAndParse s gen) := by
  unfold generateAndParse
  split
  · exact fallbackErrorIntent_wellFormed
  · split
    · exact fallbackErrorIntent_wellFormed
    · rename_i parsed hparse
      split
      · exact fallbackErrorIntent_wellFormed
      · exact parseAIResponse_ok_wellFormed _ _ hparse

/-- C7: every structured intent `processMessage` returns has an action in
the closed enum and a confidence in [0,1] (given that any cache hit holds a
previously returned, well-formed intent), and any parse or validation
failure of the model's raw output is converted into the safe fallback
`error` intent (action `error`, confidence 0, generic apology), never a
silently guessed different action. -/
theorem C7_parser_closed_enum_and_fallback :
    (∀ (msg : Option String) (cached : Option AIIntent) (bypass : Bool)
       (gen : Except String RawParse),
       (∀ c, cached = some c → intentWellFormed c) →
       intentWellFormed (processMessage msg cached bypass gen)) ∧
    (∀ (msg : Option String) (bypass : Bool) (raw : RawParse) (e : String),
       parseAIResponse raw = .error e →
       processMessage msg none bypass (.ok raw) = fallbackErrorIntent) := by
  constructor
  · intro msg cached bypass gen hcache
    unfold processMessage
    dsimp only
    repeat' split
    all_goals first
      | exact fallbackErrorIntent_wellFormed
      | exact generateAndParse_wellFormed _ _
      | exact hcache _ rfl
  · intro msg bypass raw e herr
    unfold processMessage
    dsimp only
    repeat' split
    all_goals first
      | rfl
      | (unfold generateAndParse; simp [herr])

/-! ## Claims about the Input Sanitizer -/

/-- C8 counterexample: for empty (and non-string) input the early return's
object carries no `riskScore` at all (`undefined` in JS), so the claimed
"riskScore in [0,100] for every input" fails. -/
theorem C8_counterexample_empty_input :
    (sanitizeInput (some "") none).riskScore = none ∧
    (sanitizeInput none none).riskScore = none := by decide

/-- C8 (amended): for every non-empty string input the sanitizer's
riskScore is present and lies in [0,100]; and the risk-score computation
is monotonically non-decreasing in the number of matching suspicious
patterns (the other components held fixed).  Empty or non-string input
returns the invalid-input result with no riskScore field. -/
theorem C8_riskScore_bounded_and_monotone :
    (∀ s : String, s.isEmpty = false →
      ∃ r, (sanitizeInput (some s) none).riskScore = some r ∧ r ≤ 100) ∧
    (∀ len warn s1 s2 kw, s1 ≤ s2 →
      riskScoreCore len warn s1 kw ≤ riskScoreCore len warn s2 kw) := by
  constructor
  · intro s h
    refine ⟨calculateRiskScore s (sanitizePasses s 2000).2, ?_, ?_⟩
    · simp only [sanitizeInput, h, Bool.false_eq_true, if_false, Option.getD]
    · unfold calculateRiskScore riskScoreCore
      dsimp only
      exact Nat.min_le_right _ _
  · intro len warn s1 s2 kw h
    unfold riskScoreCore
    dsimp only
    omega

/-! ## Claims about `extractOrderIds` -/

theorem mem_insertUnique (l : List String) (x y : String)
    (h : y ∈ insertUnique l x) : y ∈ l ∨ y = x := by
  unfold insertUnique at h
  split at h
  · exact Or.inl h
  · rcases List.mem_append.mp h with h' | h'
    · exact Or.inl h'
    · exact Or.inr (List.mem_singleton.mp h')

theorem insertUnique_nodup (l : List String) (x : String) (h : l.Nodup) :
    (insertUnique l x).Nodup := by
  unfold insertUnique
  split
  · exact h
  · rename_i hx
    simpa using List.Nodup.concat hx h

/-- The acceptance filter of `extractOrderIds`: length in [3,20] and not a
common English word. -/
def cleanedOk (id : String) : Prop :=
  3 ≤ id.length ∧ id.length ≤ 20 ∧ id ∉ commonWords

/-- Every element the match-folding adds satisfies the acceptance filter. -/
theorem mem_addMatches (clean : String → String) (ms : List String)
    (acc : List String) (y : String) (h : y ∈ addMatches clean ms acc) :
    y ∈ acc ∨ cleanedOk y := by
  induction ms generalizing acc with
  | nil => exact Or.inl h
  | cons m rest ih =>
    simp only [addMatches] at h
    rcases ih _ h with h' | h'
    · revert h'
      split
      · intro h'
        rcases mem_insertUnique _ _ _ h' with h'' | h''
        · exact Or.inl h''
        · subst h''
          rename_i hok
          exact Or.inr hok
      · exact Or.inl
    · exact Or.inr h'

theorem addMatches_nodup (clean : String → String) (ms : List String)
    (acc : List String) (h : acc.Nodup) : (addMatches clean ms acc).Nodup := by
  induction ms generalizing acc with
  | nil => exact h
  | cons m rest ih =>
    simp only [addMatches]
    apply ih
    split
    · exact insertUnique_nodup _ _ h
    · exact h

/-- C9 (amended): `extractOrderIds` deduplicates the cleaned matches,
discards common English words and out-of-range lengths, and flags
`isValid` exactly when between 1 and 3 distinct ids were found — but the
returned list itself is NOT capped at 3 entries.  The claim's two concrete
examples hold, and a lower-case reference is uppercased. -/
theorem C9_extractOrderIds_spec :
    extractOrderIds "Cancel my order ORD-2024-001" =
      { orderIds := ["ORD-2024-001"], isValid := true } ∧
    extractOrderIds "I need help" = { orderIds := [], isValid := false } ∧
    extractOrderIds "cancel ord-2024-007 please" =
      { orderIds := ["ORD-2024-007"], isValid := true } ∧
    (∀ s : String, (extractOrderIds s).orderIds.Nodup) ∧
    (∀ (s : String) (id : String), id ∈ (extractOrderIds s).orderIds →
      3 ≤ id.length ∧ id.length ≤ 20 ∧ id ∉ commonWords) ∧
    (∀ s : String, (extractOrderIds s).isValid =
      ((extractOrderIds s).orderIds.length > 0 &&
        (extractOrderIds s).orderIds.length ≤ 3)) := by
  refine ⟨by decide, by decide, by decide, ?_, ?_, ?_⟩
  · intro s
    unfold extractOrderIds
    dsimp only
    exact addMatches_nodup _ _ _ (addMatches_nodup _ _ _ (addMatches_nodup _ _ _
      (addMatches_nodup _ _ _ (addMatches_nodup _ _ _ List.nodup_nil))))
  · intro s id h
    unfold extractOrderIds at h
    dsimp only at h
    rcases mem_addMatches _ _ _ _ h with h | h
    · rcases mem_addMatches _ _ _ _ h with h | h
      · rcases mem_addMatches _ _ _ _ h with h | h
        · rcases mem_addMatches _ _ _ _ h with h | h
          · rcases mem_addMatches _ _ _ _ h with h | h
            · simp at h
            · exact h
          · exact h
        · exact h
      · exact h
    · exact h
  · intro s
    rfl

/-- C9 counterexample: an input with four distinct order references
returns all four ids — the list is not capped at 3 (only `isValid` turns
false). -/
theorem C9_counterexample_four_ids :
    (extractOrderIds "ORD-2024-001 ORD-2024-002 ORD-2024-003 ORD-2024-004").orderIds =
      ["ORD-2024-001", "ORD-2024-002", "ORD-2024-003", "ORD-2024-004"] ∧
    (extractOrderIds "ORD-2024-001 ORD-2024-002 ORD-2024-003 ORD-2024-004").isValid = false := by
  decide

/-! ## Claims about the chat controller's cancellation paths -/

def c1History : List ChatMsg :=
  [{ role := "assistant",
     content := "Are you sure you want to confirm cancellation of order ORD-2024-001?" }]

def c1Order : DirectOrder :=
  { orderId := "ORD-2024-001", customerId := some "user-1", userId := none,
    status := "pending", cancelledAt := none, cancelledBy := none,
    cancellationReason := none, updatedAt := none }

def c1CancelledOrder : DirectOrder :=
  { c1Order with
    status := "cancelled", cancelledAt := some 5,
    cancellationReason := some "Customer requested cancellation via chat",
    updatedAt := some 5 }

def c1Env : ValidationEnv :=
  { orderCache := fun _ => none, ordersColl := fun _ => none,
    nodeEnv := "production",
    countCancellations24h := fun _ => .ok 0,
    countRequests5m := fun _ => .ok 0,
    countActivity1m := fun _ _ => .ok 0 }

/-- C1 (code bug): a bare "yes" reply after a pending confirmation prompt
takes the confirmation-response shortcut of the message route, which
cancels the order through `performOrderCancellation` with NO
Action-Validator run: the event trace of the whole request is a single
order-store update and contains no `validatorRun` event, while the user is
told the order was cancelled.  The mutation was not preceded by any
`isValid = true` validation, contradicting the claimed pipeline
invariant. -/
theorem C1_confirmation_path_mutates_without_validation :
    processChatMessage
      { message := some "yes", sessionId := some "sess-1", userId := some "user-1" }
      c1History [c1Order] c1Env true none false (.ok .notJson) 5 =
    ({ httpStatus := 200, action := some "order_cancelled",
       orderId := some "ORD-2024-001",
       message := some "Perfect! I\x27ve successfully cancelled order ORD-2024-001. You should see the updated status shortly." },
     [c1CancelledOrder],
     [PipeEvent.dbUpdate "ORD-2024-001" true true]) := by decide

def c2Order : DirectOrder :=
  { orderId := "ORD-2024-001", customerId := some "user-1", userId := none,
    status := "shipped", cancelledAt := none, cancelledBy := none,
    cancellationReason := none, updatedAt := none }

def c2CancelledOrder (now : Nat) : DirectOrder :=
  { c2Order with
    status := "cancelled", cancelledAt := some now, cancelledBy := some "user-1" }

def c2Intent : AIIntent :=
  { action := "confirm_cancellation", orderId := some "ORD-2024-001", productName := none,
    confidence := 1, message := "Confirming the cancellation", requiresConfirmation := false }

def c2SuccessMessage : String :=
  "✅ **Order Cancelled Successfully**\n\nOrder **ORD-2024-001** has been cancelled.\n\nYou will receive a refund within 3-5 business days. A confirmation email has been sent to your registered email address.\n\nIs there anything else I can help you with?"

set_option maxRecDepth 4000 in
/-- C2 (code bug): `handleConfirmCancellation`'s `updateOne` filter is
`{orderId, customerId}` with no condition on the current status, so it is
not the claimed conditional write.  First conjunct: a SHIPPED (terminal,
non-cancellable) order is updated to `cancelled` with `modified = true`
and a success message.  Second conjunct: replaying the same confirmed
cancellation against the already-cancelled result again observes
`modified = true` (the `$set` writes a fresh `cancelledAt`) and reports a
second success — the loser of a race is not reported as "already
cancelled". -/
theorem C2_cancellation_write_unconditional :
    (handleConfirmCancellation "user-1" c2Intent "confirm_cancel_ORD-2024-001" "sess-1"
        [c2Order] 7 =
      ({ httpStatus := 200, action := some "confirm_cancellation",
         orderId := some "ORD-2024-001", message := some c2SuccessMessage },
       [c2CancelledOrder 7],
       [PipeEvent.dbUpdate "ORD-2024-001" true true])) ∧
    (handleConfirmCancellation "user-1" c2Intent "confirm_cancel_ORD-2024-001" "sess-1"
        [c2CancelledOrder 7] 8 =
      ({ httpStatus := 200, action := some "confirm_cancellation",
         orderId := some "ORD-2024-001", message := some c2SuccessMessage },
       [c2CancelledOrder 8],
       [PipeEvent.dbUpdate "ORD-2024-001" true true])) := by decide
